import Mathlib

/-!
Verification of the dataiku-chat-control repository core:
the polling wait loops of `mcp-server/helpers/jobs.py`
(`wait_for_job`, `run_scenario_and_wait`) and the code-execution
tool of `mcp-server/server.py` (`execute_python`).

Timing model for the polling loops: the source measures wall-clock
time (`time.time() - start_time`) and sleeps `poll_interval` seconds
between status queries.  We use the idealized clock in which status
queries are instantaneous and each `time.sleep(poll_interval)` takes
exactly `poll_interval` seconds, so at the top of loop iteration `k`
the elapsed time is `k * poll_interval`.  A job handle is modelled by
the sequence of status payloads its `get_status()` returns at each
poll.  The loop is realized with a fuel argument; the chosen fuel is
proved sufficient whenever `poll_interval ≥ 1`, so `none` (fuel
exhaustion) never occurs in the claims below.
-/

/-- The `baseStatus` sub-dictionary of a job status payload: we model the
one key the code reads, `state`, `none` meaning the key is absent. -/
structure BaseStatus where
  state : Option String
deriving DecidableEq

/-- A raw job status payload as read by `wait_for_job`:
`status.get("baseStatus", {})` and `status.get("state", ...)`.
`none` means the corresponding key is absent. -/
structure JobStatus where
  baseStatus : Option BaseStatus
  state : Option String
deriving DecidableEq

/-- `status.get("baseStatus", {}).get("state", status.get("state", "UNKNOWN"))`
from jobs.py line 34: a missing `baseStatus` behaves as the empty dict. -/
def extract_state (status : JobStatus) : String :=
  ((status.baseStatus.getD ⟨none⟩).state).getD (status.state.getD "UNKNOWN")

/-- `state in ("DONE", "FAILED", "ABORTED")` from jobs.py line 36. -/
def isTerminal (state : String) : Bool :=
  state == "DONE" || state == "FAILED" || state == "ABORTED"

/-- The `details` field of a job wait result: either the formatted timeout
message or the raw status payload. -/
inductive JobDetails where
  | message (s : String)
  | raw (status : JobStatus)
deriving DecidableEq

/-- The dict returned by `wait_for_job`: keys success, status, duration,
details. Durations are in seconds of the idealized clock. -/
structure WaitResult where
  success : Bool
  status : String
  duration : Nat
  details : JobDetails
deriving DecidableEq

/-- The body of `wait_for_job`'s `while True` loop (jobs.py lines 23-44),
iterating from poll index `k`, with elapsed time `k * poll_interval`.
The fuel argument only forces termination; `wait_for_job` passes enough
fuel that it is never exhausted when `poll_interval ≥ 1`. -/
def waitGo (status : Nat → JobStatus) (timeout poll_interval : Nat) :
    Nat → Nat → Option WaitResult
  | 0, _ => none
  | fuel + 1, k =>
    if k * poll_interval > timeout then
      some ⟨false, "TIMEOUT", k * poll_interval,
        .message ("Job did not complete within " ++ toString timeout ++ " seconds")⟩
    else if isTerminal (extract_state (status k)) then
      some ⟨extract_state (status k) == "DONE", extract_state (status k),
        k * poll_interval, .raw (status k)⟩
    else
      waitGo status timeout poll_interval fuel (k + 1)

/-- `wait_for_job(job, timeout=600, poll_interval=2)` from jobs.py lines
10-44, with the job handle modelled as its sequence of polled statuses. -/
def wait_for_job (status : Nat → JobStatus) (timeout : Nat := 600)
    (poll_interval : Nat := 2) : Option WaitResult :=
  waitGo status timeout poll_interval (timeout / poll_interval + 2) 0

/-- The `result` sub-dictionary of a scenario run info payload; we model
the one key the code reads, `outcome` (`none` = key absent or null). -/
structure ScenarioRunOutcome where
  outcome : Option String
deriving DecidableEq

/-- The `scenarioRun` sub-dictionary of a run info payload. -/
structure ScenarioRunPart where
  result : Option ScenarioRunOutcome
deriving DecidableEq

/-- A raw `run.get_info()` payload as read by `run_scenario_and_wait`. -/
structure RunInfo where
  scenarioRun : Option ScenarioRunPart
deriving DecidableEq

/-- `run_info.get("scenarioRun", {}).get("result", {}).get("outcome")`
from jobs.py line 100: each missing key behaves as the empty dict. -/
def run_info_outcome (run_info : RunInfo) : Option String :=
  ((run_info.scenarioRun.getD ⟨none⟩).result.getD ⟨none⟩).outcome

/-- The `details` field of a scenario wait result: the formatted timeout
message or the raw run info payload. -/
inductive ScenarioDetails where
  | message (s : String)
  | raw (run_info : RunInfo)
deriving DecidableEq

/-- The dict returned by `run_scenario_and_wait`: keys success, status,
duration, outcome, details. -/
structure ScenarioWaitResult where
  success : Bool
  status : String
  duration : Nat
  outcome : Option String
  details : ScenarioDetails
deriving DecidableEq

/-- The body of `run_scenario_and_wait`'s `while True` loop (jobs.py lines
88-111); the sleep between polls is the literal `time.sleep(2)`, so the
elapsed time at poll index `k` is `k * 2`.  The fuel argument only forces
termination and is never exhausted with the fuel `run_scenario_and_wait`
passes. -/
def scenarioGo (run : Nat → RunInfo) (timeout : Nat) :
    Nat → Nat → Option ScenarioWaitResult
  | 0, _ => none
  | fuel + 1, k =>
    if k * 2 > timeout then
      some ⟨false, "TIMEOUT", k * 2, none,
        .message ("Scenario did not complete within " ++ toString timeout ++ " seconds")⟩
    else
      match run_info_outcome (run k) with
      | some state =>
          some ⟨state == "SUCCESS", "DONE", k * 2, some state, .raw (run k)⟩
      | none => scenarioGo run timeout fuel (k + 1)

/-- The wait loop of `run_scenario_and_wait(client, project_key,
scenario_id, timeout=600)` from jobs.py lines 69-111, with the started
run handle modelled as its sequence of polled `get_info()` payloads. -/
def run_scenario_and_wait (run : Nat → RunInfo) (timeout : Nat := 600) :
    Option ScenarioWaitResult :=
  scenarioGo run timeout (timeout / 2 + 2) 0

/-!
Execution session model (`mcp-server/server.py`).

`execute_python` runs arbitrary Python against the module-level
`execution_globals` dict.  We model the Python snippets the spec's
properties exercise with a small statement language `Cmd` (assignment
of a literal, `print` of a variable, `print` of a string literal,
`raise`), and `exec` of such a snippet as the sequential interpreter
`runCmds` over the namespace, accumulating the captured stdout and
stopping at the first raised exception (bindings made before the raise
are kept, exactly as CPython's `exec` mutates the globals dict in
place).  The module-level state of server.py (`_credentials_missing`,
the `_client` singleton, `execution_globals`) is the `ServerState`
record, threaded explicitly.
-/

/-- A value in the execution namespace: an int or string literal, or
the Dataiku client handle that the server binds to `client`. -/
inductive Val where
  | int (n : Int)
  | str (s : String)
  | clientHandle
deriving DecidableEq

/-- What CPython's `print` writes for a value of our `Val` type. -/
def valToString : Val → String
  | .int n => toString n
  | .str s => s
  | .clientHandle => "<DSSClient>"

/-- One Python statement of the modelled snippet language. -/
inductive Cmd where
  | assign (x : String) (v : Val)
  | printVar (x : String)
  | printLit (s : String)
  | raiseErr (kind msg : String)
deriving DecidableEq

/-- The variable names a statement reads or writes. -/
def cmdVars : Cmd → List String
  | .assign x _ => [x]
  | .printVar x => [x]
  | .printLit _ => []
  | .raiseErr _ _ => []

/-- All variable names occurring in a snippet. -/
def cmdsVars : List Cmd → List String
  | [] => []
  | c :: rest => cmdVars c ++ cmdsVars rest

/-- The execution namespace: the `execution_globals` dict of server.py
(lines 117-124), as a map from identifier to value. -/
def NS : Type := String → Option Val

/-- `globals[x] = v`: dict assignment on the namespace. -/
def updateNS (g : NS) (x : String) (v : Val) : NS :=
  fun y => if y = x then some v else g y

/-- How `exec(code, execution_globals)` ends: normally, or with a raised
exception of the given kind and message. -/
inductive ExecOutcome where
  | ok
  | exn (kind msg : String)
deriving DecidableEq

/-- `exec(code, execution_globals)` on a modelled snippet: runs the
statements in order against the namespace, appending any printed text to
the captured stdout, and stopping at the first raised exception.  Returns
the namespace after execution, the captured stdout, and the outcome. -/
def runCmds : List Cmd → NS → String → NS × String × ExecOutcome
  | [], g, out => (g, out, .ok)
  | c :: rest, g, out =>
    match c with
    | .assign x v => runCmds rest (updateNS g x v) out
    | .printVar x =>
      match g x with
      | some v => runCmds rest g (out ++ valToString v ++ "\n")
      | none => (g, out, .exn "NameError" ("name " ++ x ++ " is not defined"))
    | .printLit s => runCmds rest g (out ++ s ++ "\n")
    | .raiseErr kind msg => (g, out, .exn kind msg)

/-- The module-level mutable state of server.py: the credential check
result (line 34), the `_client` singleton (line 107) together with a
count of `get_client()` remote-connection acquisitions, and the
persistent `execution_globals` namespace. -/
structure ServerState where
  credentialsMissing : Bool
  client : Option Unit
  clientInstantiations : Nat
  globals : NS

/-- `get_dataiku_client()` from server.py lines 109-114: instantiate the
client singleton on first use, reuse it afterwards.  Each instantiation
is counted as one remote-connection acquisition. -/
def get_dataiku_client (st : ServerState) : ServerState :=
  match st.client with
  | some _ => st
  | none =>
      { st with client := some (), clientInstantiations := st.clientInstantiations + 1 }

/-- `traceback.format_exc()` as reported by server.py's except branch;
modelled as the header plus the exception line CPython always ends
the trace with. -/
def format_exc (kind msg : String) : String :=
  "Traceback (most recent call last):\n  ...\n" ++ kind ++ ": " ++ msg ++ "\n"

/-- The credentials-missing diagnostic returned by `execute_python`
(server.py lines 148-160, after `dedent(...).strip()`). -/
def credentials_error_text : String :=
  "ERROR: Dataiku credentials not configured.\n\nPlease add DATAIKU_URL and DATAIKU_API_KEY to your MCP server config.\n\nEdit ~/.claude/mcp_settings.json and add to the \x22dataiku\x22 server:\n  \x22env\x22: \x7b\n    \x22DATAIKU_URL\x22: \x22https://your-instance.dataiku.com\x22,\n    \x22DATAIKU_API_KEY\x22: \x22your-api-key\x22\n  \x7d\n\nThen restart Claude Code."

/-- `execute_python(code)` from server.py lines 127-181, returning the
string the tool reports and the module state after the call: refuse with
the diagnostic when credentials are missing; otherwise bind `client` in
the namespace (instantiating the singleton if needed), exec the code
capturing stdout, and return the output (or the fixed placeholder when
empty), or on an exception the captured output concatenated with the
error label, message and traceback. -/
def execute_python (st : ServerState) (code : List Cmd) : String × ServerState :=
  if st.credentialsMissing then
    (credentials_error_text, st)
  else
    match runCmds code (updateNS (get_dataiku_client st).globals "client" Val.clientHandle) "" with
    | (g1, out, .ok) =>
        (if out = "" then "(executed successfully, no output)" else out,
         { get_dataiku_client st with globals := g1 })
    | (g1, out, .exn kind msg) =>
        (out ++ "\nError: " ++ kind ++ ": " ++ msg ++ "\n\n" ++ format_exc kind msg,
         { get_dataiku_client st with globals := g1 })

/-! ### Loop lemmas for `wait_for_job` -/

/-- From any start index, if `k` is the first terminal poll and it occurs
within the timeout window, the loop returns the terminal record for `k`. -/
theorem waitGo_terminal_eq (status : Nat → JobStatus) (t p : Nat) :
    ∀ (fuel i k : Nat), i ≤ k → k - i < fuel → k * p ≤ t →
      (∀ j, i ≤ j → j < k → isTerminal (extract_state (status j)) = false) →
      isTerminal (extract_state (status k)) = true →
      waitGo status t p fuel i =
        some ⟨extract_state (status k) == "DONE", extract_state (status k), k * p,
          .raw (status k)⟩ := by
  intro fuel
  induction fuel with
  | zero => intro i k _ h2 _ _ _; omega
  | succ fuel ih =>
    intro i k hik hfuel hkt hpre hterm
    by_cases heq : i = k
    · subst heq
      simp only [waitGo]
      rw [if_neg (Nat.not_lt.mpr hkt), if_pos hterm]
    · have hlt : i < k := lt_of_le_of_ne hik heq
      have hipt : i * p ≤ t := le_trans (Nat.mul_le_mul hik le_rfl) hkt
      have hnti : ¬ (isTerminal (extract_state (status i)) = true) := by
        rw [hpre i le_rfl hlt]; simp
      simp only [waitGo]
      rw [if_neg (Nat.not_lt.mpr hipt), if_neg hnti]
      exact ih (i + 1) k hlt (by omega) hkt (fun j hj1 hj2 => hpre j (by omega) hj2) hterm

/-- If every poll inside the timeout window is non-terminal, the loop
returns the timeout record with duration `(t / p + 1) * p` — the first
elapsed time strictly greater than `t`. -/
theorem waitGo_timeout_eq (status : Nat → JobStatus) (t p : Nat) (hp : 0 < p)
    (hnt : ∀ j, j * p ≤ t → isTerminal (extract_state (status j)) = false) :
    ∀ (fuel i : Nat), i ≤ t / p + 1 → t / p + 1 - i < fuel →
      waitGo status t p fuel i =
        some ⟨false, "TIMEOUT", (t / p + 1) * p,
          .message ("Job did not complete within " ++ toString t ++ " seconds")⟩ := by
  intro fuel
  induction fuel with
  | zero => intro i _ h2; omega
  | succ fuel ih =>
    intro i hi hfuel
    by_cases heq : i = t / p + 1
    · subst heq
      have htlt : t < (t / p + 1) * p := by
        have h1 := Nat.div_add_mod t p
        have h2 := Nat.mod_lt t hp
        calc t = p * (t / p) + t % p := (Nat.div_add_mod t p).symm
        _ < p * (t / p) + p := by omega
        _ = (t / p + 1) * p := by ring
      simp only [waitGo]
      rw [if_pos htlt]
    · have hlt : i < t / p + 1 := lt_of_le_of_ne hi heq
      have hile : i ≤ t / p := by omega
      have hipt : i * p ≤ t :=
        le_trans (Nat.mul_le_mul hile le_rfl) (Nat.div_mul_le_self t p)
      have hnti : ¬ (isTerminal (extract_state (status i)) = true) := by
        rw [hnt i hipt]; simp
      simp only [waitGo]
      rw [if_neg (Nat.not_lt.mpr hipt), if_neg hnti]
      exact ih (i + 1) hlt (by omega)

/-- `wait_for_job` at the top level, terminal case. -/
theorem wait_for_job_terminal (status : Nat → JobStatus) (t p k : Nat)
    (hp : 0 < p) (hk : k * p ≤ t)
    (hpre : ∀ j, j < k → isTerminal (extract_state (status j)) = false)
    (hterm : isTerminal (extract_state (status k)) = true) :
    wait_for_job status t p =
      some ⟨extract_state (status k) == "DONE", extract_state (status k), k * p,
        .raw (status k)⟩ := by
  have hkd : k ≤ t / p := (Nat.le_div_iff_mul_le hp).mpr hk
  exact waitGo_terminal_eq status t p (t / p + 2) 0 k (Nat.zero_le k) (by omega) hk
    (fun j _ hj2 => hpre j hj2) hterm

/-- `wait_for_job` at the top level, timeout case. -/
theorem wait_for_job_timeout (status : Nat → JobStatus) (t p : Nat) (hp : 0 < p)
    (hnt : ∀ j, j * p ≤ t → isTerminal (extract_state (status j)) = false) :
    wait_for_job status t p =
      some ⟨false, "TIMEOUT", (t / p + 1) * p,
        .message ("Job did not complete within " ++ toString t ++ " seconds")⟩ :=
  waitGo_timeout_eq status t p hp hnt (t / p + 2) 0 (Nat.zero_le _)
    (by simp)

/-- Every result the job loop can return has `success` true exactly when
its `status` is `DONE`. -/
theorem waitGo_success_iff (status : Nat → JobStatus) (t p : Nat) :
    ∀ (fuel i : Nat) (r : WaitResult), waitGo status t p fuel i = some r →
      (r.success = true ↔ r.status = "DONE") := by
  intro fuel
  induction fuel with
  | zero => intro i r h; simp [waitGo] at h
  | succ fuel ih =>
    intro i r h
    simp only [waitGo] at h
    split at h
    · cases h
      simp
    · split at h
      · cases h
        simp [beq_iff_eq]
      · exact ih (i + 1) r h

/-! ### Loop lemmas for `run_scenario_and_wait` -/

/-- From any start index, if `k` is the first poll with a non-null
outcome and it occurs within the timeout window, the scenario loop
returns the completion record for `k` with status `DONE`. -/
theorem scenarioGo_terminal_eq (run : Nat → RunInfo) (t : Nat) :
    ∀ (fuel i k : Nat) (o : String), i ≤ k → k - i < fuel → k * 2 ≤ t →
      (∀ j, i ≤ j → j < k → run_info_outcome (run j) = none) →
      run_info_outcome (run k) = some o →
      scenarioGo run t fuel i =
        some ⟨o == "SUCCESS", "DONE", k * 2, some o, .raw (run k)⟩ := by
  intro fuel
  induction fuel with
  | zero => intro i k o _ h2 _ _ _; omega
  | succ fuel ih =>
    intro i k o hik hfuel hkt hpre hout
    by_cases heq : i = k
    · subst heq
      simp only [scenarioGo]
      rw [if_neg (Nat.not_lt.mpr hkt), hout]
    · have hlt : i < k := lt_of_le_of_ne hik heq
      have hipt : i * 2 ≤ t := by omega
      simp only [scenarioGo]
      rw [if_neg (Nat.not_lt.mpr hipt), hpre i le_rfl hlt]
      exact ih (i + 1) k o hlt (by omega) hkt (fun j hj1 hj2 => hpre j (by omega) hj2) hout

/-- If the outcome is null on every poll inside the timeout window, the
scenario loop returns the timeout record with duration `(t / 2 + 1) * 2`. -/
theorem scenarioGo_timeout_eq (run : Nat → RunInfo) (t : Nat)
    (hnull : ∀ j, j * 2 ≤ t → run_info_outcome (run j) = none) :
    ∀ (fuel i : Nat), i ≤ t / 2 + 1 → t / 2 + 1 - i < fuel →
      scenarioGo run t fuel i =
        some ⟨false, "TIMEOUT", (t / 2 + 1) * 2, none,
          .message ("Scenario did not complete within " ++ toString t ++ " seconds")⟩ := by
  intro fuel
  induction fuel with
  | zero => intro i _ h2; omega
  | succ fuel ih =>
    intro i hi hfuel
    by_cases heq : i = t / 2 + 1
    · subst heq
      have htlt : t < (t / 2 + 1) * 2 := by omega
      simp only [scenarioGo]
      rw [if_pos htlt]
    · have hlt : i < t / 2 + 1 := lt_of_le_of_ne hi heq
      have hipt : i * 2 ≤ t := by omega
      simp only [scenarioGo]
      rw [if_neg (Nat.not_lt.mpr hipt), hnull i hipt]
      exact ih (i + 1) hlt (by omega)

/-- `run_scenario_and_wait` at the top level, completion case. -/
theorem run_scenario_and_wait_terminal (run : Nat → RunInfo) (t k : Nat) (o : String)
    (hk : k * 2 ≤ t)
    (hpre : ∀ j, j < k → run_info_outcome (run j) = none)
    (hout : run_info_outcome (run k) = some o) :
    run_scenario_and_wait run t =
      some ⟨o == "SUCCESS", "DONE", k * 2, some o, .raw (run k)⟩ :=
  scenarioGo_terminal_eq run t (t / 2 + 2) 0 k o (Nat.zero_le k) (by omega) hk
    (fun j _ hj2 => hpre j hj2) hout

/-- `run_scenario_and_wait` at the top level, timeout case. -/
theorem run_scenario_and_wait_timeout (run : Nat → RunInfo) (t : Nat)
    (hnull : ∀ j, j * 2 ≤ t → run_info_outcome (run j) = none) :
    run_scenario_and_wait run t =
      some ⟨false, "TIMEOUT", (t / 2 + 1) * 2, none,
        .message ("Scenario did not complete within " ++ toString t ++ " seconds")⟩ :=
  scenarioGo_timeout_eq run t hnull (t / 2 + 2) 0 (Nat.zero_le _) (by simp)

/-- Every result the scenario loop can return has `success` true exactly
when its `outcome` is `SUCCESS`. -/
theorem scenarioGo_success_iff (run : Nat → RunInfo) (t : Nat) :
    ∀ (fuel i : Nat) (r : ScenarioWaitResult), scenarioGo run t fuel i = some r →
      (r.success = true ↔ r.outcome = some "SUCCESS") := by
  intro fuel
  induction fuel with
  | zero => intro i r h; simp [scenarioGo] at h
  | succ fuel ih =>
    intro i r h
    simp only [scenarioGo] at h
    split at h
    · cases h
      simp
    · split at h
      next o ho =>
        cases h
        simp [beq_iff_eq]
      next ho => exact ih (i + 1) r h

/-! ### Lemmas for the execution session -/

/-- Acquiring the client singleton does not touch the namespace. -/
theorem get_dataiku_client_globals (st : ServerState) :
    (get_dataiku_client st).globals = st.globals := by
  cases hc : st.client <;> simp [get_dataiku_client, hc]

/-- Acquiring the client singleton does not touch the credential flag. -/
theorem get_dataiku_client_credentials (st : ServerState) :
    (get_dataiku_client st).credentialsMissing = st.credentialsMissing := by
  cases hc : st.client <;> simp [get_dataiku_client, hc]

/-- The captured output and outcome of a snippet depend only on the
namespace entries at the snippet's own variable names. -/
theorem runCmds_agree (code : List Cmd) :
    ∀ (g g' : NS) (out : String),
      (∀ x, x ∈ cmdsVars code → g x = g' x) →
      (runCmds code g out).2 = (runCmds code g' out).2 := by
  induction code with
  | nil => intro g g' out _; rfl
  | cons c rest ih =>
    intro g g' out h
    cases c with
    | assign x v =>
      simp only [runCmds]
      apply ih
      intro y hy
      by_cases hyx : y = x
      · simp [updateNS, hyx]
      · simp only [updateNS, if_neg hyx]
        exact h y (by simp [cmdsVars, cmdVars, hy])
    | printVar x =>
      have hx : g x = g' x := h x (by simp [cmdsVars, cmdVars])
      simp only [runCmds]
      rw [hx]
      cases hgx : g' x with
      | none => simp
      | some v =>
        simp only []
        exact ih _ _ _ (fun y hy => h y (by simp [cmdsVars, cmdVars, hy]))
    | printLit s =>
      simp only [runCmds]
      exact ih _ _ _ (fun y hy => h y (by simp [cmdsVars, cmdVars, hy]))
    | raiseErr kind msg => rfl

/-- Running a snippet changes the namespace only at the snippet's own
variable names. -/
theorem runCmds_frame (code : List Cmd) :
    ∀ (g : NS) (out : String) (x : String), x ∉ cmdsVars code →
      (runCmds code g out).1 x = g x := by
  induction code with
  | nil => intro g out x _; rfl
  | cons c rest ih =>
    intro g out x hx
    cases c with
    | assign y v =>
      simp only [cmdsVars, cmdVars, List.cons_append, List.nil_append,
        List.mem_cons, not_or] at hx
      simp only [runCmds]
      rw [ih _ _ _ hx.2]
      simp [updateNS, hx.1]
    | printVar y =>
      simp only [cmdsVars, cmdVars, List.cons_append, List.nil_append,
        List.mem_cons, not_or] at hx
      simp only [runCmds]
      cases hgy : g y with
      | none => simp
      | some v =>
        simp only []
        exact ih _ _ _ hx.2
    | printLit s =>
      simp only [cmdsVars, cmdVars, List.nil_append] at hx
      simp only [runCmds]
      exact ih _ _ _ hx
    | raiseErr kind msg => rfl

/-- Characterization of `execute_python` when credentials are present:
the returned string renders the interpreter's captured output and
outcome, and the new state keeps the post-execution namespace. -/
theorem execute_python_eq (st : ServerState) (code : List Cmd)
    (hcred : st.credentialsMissing = false) (g1 : NS) (out : String) (oc : ExecOutcome)
    (hrun : runCmds code (updateNS st.globals "client" Val.clientHandle) "" = (g1, out, oc)) :
    execute_python st code =
      ((match oc with
        | .ok => if out = "" then "(executed successfully, no output)" else out
        | .exn kind msg =>
            out ++ "\nError: " ++ kind ++ ": " ++ msg ++ "\n\n" ++ format_exc kind msg),
       { get_dataiku_client st with globals := g1 }) := by
  cases oc with
  | ok =>
      simp only [execute_python, hcred, Bool.false_eq_true, if_false,
        get_dataiku_client_globals, hrun]
  | exn kind msg =>
      simp only [execute_python, hcred, Bool.false_eq_true, if_false,
        get_dataiku_client_globals, hrun]

/-- The string `execute_python` returns, as a function of the
interpreter's captured output and outcome. -/
theorem execute_python_fst (st : ServerState) (code : List Cmd)
    (hcred : st.credentialsMissing = false) :
    (execute_python st code).1 =
      (match (runCmds code (updateNS st.globals "client" Val.clientHandle) "").2 with
       | (out, .ok) => if out = "" then "(executed successfully, no output)" else out
       | (out, .exn kind msg) =>
           out ++ "\nError: " ++ kind ++ ": " ++ msg ++ "\n\n" ++ format_exc kind msg) := by
  rcases h : runCmds code (updateNS st.globals "client" Val.clientHandle) "" with ⟨g1, out, oc⟩
  rw [execute_python_eq st code hcred g1 out oc h]
  cases oc <;> rfl

/-- The namespace after a credentialed `execute_python` call is the
namespace the interpreter produced. -/
theorem execute_python_snd_globals (st : ServerState) (code : List Cmd)
    (hcred : st.credentialsMissing = false) :
    (execute_python st code).2.globals =
      (runCmds code (updateNS st.globals "client" Val.clientHandle) "").1 := by
  rcases h : runCmds code (updateNS st.globals "client" Val.clientHandle) "" with ⟨g1, out, oc⟩
  rw [execute_python_eq st code hcred g1 out oc h]

/-- A credentialed `execute_python` call leaves the credential flag clear. -/
theorem execute_python_snd_credentials (st : ServerState) (code : List Cmd)
    (hcred : st.credentialsMissing = false) :
    (execute_python st code).2.credentialsMissing = false := by
  rcases h : runCmds code (updateNS st.globals "client" Val.clientHandle) "" with ⟨g1, out, oc⟩
  rw [execute_python_eq st code hcred g1 out oc h]
  show (get_dataiku_client st).credentialsMissing = false
  rw [get_dataiku_client_credentials]
  exact hcred

/-- Running snippet `a` after an unrelated snippet `b` (no shared
variable names) returns the same string as running `a` directly. -/
theorem execute_python_unrelated_first (st : ServerState) (a b : List Cmd)
    (hcred : st.credentialsMissing = false)
    (hdisj : ∀ x, x ∈ cmdsVars a → x ∉ cmdsVars b) :
    (execute_python (execute_python st b).2 a).1 = (execute_python st a).1 := by
  have hcred2 : (execute_python st b).2.credentialsMissing = false :=
    execute_python_snd_credentials st b hcred
  rcases hb : runCmds b (updateNS st.globals "client" Val.clientHandle) "" with ⟨gb, outb, ocb⟩
  have hagree : (runCmds a (updateNS gb "client" Val.clientHandle) "").2
      = (runCmds a (updateNS st.globals "client" Val.clientHandle) "").2 := by
    apply runCmds_agree
    intro x hx
    by_cases hxc : x = "client"
    · simp [updateNS, hxc]
    · have hf : gb x = updateNS st.globals "client" Val.clientHandle x := by
        have hfr := runCmds_frame b (updateNS st.globals "client" Val.clientHandle) "" x
          (hdisj x hx)
        rw [hb] at hfr
        exact hfr
      simp only [updateNS, if_neg hxc]
      rw [hf]
      simp [updateNS, hxc]
  rw [execute_python_fst _ a hcred2, execute_python_fst st a hcred,
    execute_python_snd_globals st b hcred, hb]
  rw [show ((gb, outb, ocb).1 : NS) = gb from rfl, hagree]

/-! ### Claim theorems -/

/-- C1: for every status sequence whose first terminal state (`DONE`,
`FAILED` or `ABORTED`) is observed at poll `k` within the timeout window,
`wait_for_job` returns a record whose `success` is true exactly when that
last observed state is `DONE` (so false for `FAILED` and `ABORTED`),
whose `status` equals exactly that terminal state, and whose `details`
is the raw status payload. -/
theorem C1_terminal_state_result (status : Nat → JobStatus) (t p k : Nat)
    (hp : 0 < p) (hk : k * p ≤ t)
    (hpre : ∀ j, j < k → isTerminal (extract_state (status j)) = false)
    (hterm : isTerminal (extract_state (status k)) = true) :
    wait_for_job status t p =
      some ⟨extract_state (status k) == "DONE", extract_state (status k), k * p,
        .raw (status k)⟩ :=
  wait_for_job_terminal status t p k hp hk hpre hterm

/-- Witness for C1 at a concrete sequence: non-terminal at poll 0, `DONE`
at poll 1. -/
theorem C1_terminal_state_result_witness :
    wait_for_job (fun k => if k = 0 then ⟨none, none⟩ else ⟨some ⟨some "DONE"⟩, none⟩) 10 2
      = some ⟨true, "DONE", 2, .raw ⟨some ⟨some "DONE"⟩, none⟩⟩ :=
  C1_terminal_state_result (fun k => if k = 0 then ⟨none, none⟩ else ⟨some ⟨some "DONE"⟩, none⟩)
    10 2 1 (by decide) (by decide) (by decide) (by decide)

/-- C2: for scenario waits, if the first non-null outcome `o` is observed
at poll `k` within the timeout window, the wait returns success exactly
when `o = SUCCESS` (any other non-null outcome gives success false); and
if the outcome is null at every poll within the window, the wait returns
the TIMEOUT record with success false. -/
theorem C2_scenario_outcome (run : Nat → RunInfo) (t k : Nat) (o : String) :
    (k * 2 ≤ t →
      (∀ j, j < k → run_info_outcome (run j) = none) →
      run_info_outcome (run k) = some o →
      run_scenario_and_wait run t =
        some ⟨o == "SUCCESS", "DONE", k * 2, some o, .raw (run k)⟩)
    ∧ ((∀ j, j * 2 ≤ t → run_info_outcome (run j) = none) →
      run_scenario_and_wait run t =
        some ⟨false, "TIMEOUT", (t / 2 + 1) * 2, none,
          .message ("Scenario did not complete within " ++ toString t ++ " seconds")⟩) :=
  ⟨fun hk hpre hout => run_scenario_and_wait_terminal run t k o hk hpre hout,
   fun hnull => run_scenario_and_wait_timeout run t hnull⟩

/-- Witness for C2: a `SUCCESS` outcome observed at poll 1, and a run
whose outcome stays null, tried at concrete timeouts. -/
theorem C2_scenario_outcome_witness :
    run_scenario_and_wait
        (fun k => if k = 0 then ⟨none⟩ else ⟨some ⟨some ⟨some "SUCCESS"⟩⟩⟩) 10
      = some ⟨true, "DONE", 2, some "SUCCESS", .raw ⟨some ⟨some ⟨some "SUCCESS"⟩⟩⟩⟩
    ∧ run_scenario_and_wait (fun _ => ⟨none⟩) 3
      = some ⟨false, "TIMEOUT", 4, none,
          .message "Scenario did not complete within 3 seconds"⟩ :=
  ⟨(C2_scenario_outcome
      (fun k => if k = 0 then ⟨none⟩ else ⟨some ⟨some ⟨some "SUCCESS"⟩⟩⟩) 10 1 "SUCCESS").1
      (by decide) (by decide) (by decide),
   (C2_scenario_outcome (fun _ => ⟨none⟩) 3 0 "SUCCESS").2 (fun j _ => rfl)⟩

/-- C3 counterexample: with timeout 2, poll_interval 2 and no poll ever
terminal, `wait_for_job` returns duration 4 = timeout + poll_interval,
which is not in the claimed half-open interval
[timeout, timeout + poll_interval). -/
theorem C3_duration_counterexample :
    wait_for_job (fun _ => ⟨none, none⟩) 2 2
      = some ⟨false, "TIMEOUT", 4, .message "Job did not complete within 2 seconds"⟩
    ∧ ¬ (4 < 2 + 2) :=
  ⟨by decide, by decide⟩

/-- C3 (amended): when no poll within the window is terminal, the wait
returns status TIMEOUT with success false, and the reported duration lies
in the closed interval [timeout, timeout + poll_interval] (the loop's
strict `elapsed > timeout` check lets the duration reach exactly
timeout + poll_interval when poll_interval divides timeout). -/
theorem C3_timeout_duration_window (status : Nat → JobStatus) (t p : Nat) (hp : 0 < p)
    (hnt : ∀ j, j * p ≤ t → isTerminal (extract_state (status j)) = false) :
    wait_for_job status t p =
      some ⟨false, "TIMEOUT", (t / p + 1) * p,
        .message ("Job did not complete within " ++ toString t ++ " seconds")⟩
    ∧ t ≤ (t / p + 1) * p ∧ (t / p + 1) * p ≤ t + p := by
  refine ⟨wait_for_job_timeout status t p hp hnt, ?_, ?_⟩
  · have h2 := Nat.mod_lt t hp
    calc t = p * (t / p) + t % p := (Nat.div_add_mod t p).symm
    _ ≤ p * (t / p) + p := Nat.add_le_add_left (le_of_lt h2) _
    _ = (t / p + 1) * p := by ring
  · calc (t / p + 1) * p = t / p * p + p := by ring
    _ ≤ t + p := Nat.add_le_add_right (Nat.div_mul_le_self t p) p

/-- Witness for the amended C3 at timeout 2, poll_interval 2: the
duration is 4, at the inclusive upper end of the interval. -/
theorem C3_timeout_duration_window_witness :
    (wait_for_job (fun _ => ⟨none, none⟩) 2 2
      = some ⟨false, "TIMEOUT", 4, .message "Job did not complete within 2 seconds"⟩)
    ∧ 2 ≤ 4 ∧ 4 ≤ 2 + 2 :=
  C3_timeout_duration_window (fun _ => ⟨none, none⟩) 2 2 (by decide) (fun j _ => rfl)

/-- C4: every result a job/recipe wait can return has success true iff
its status is DONE, and every result a scenario wait can return has
success true iff its outcome is SUCCESS; all other terminal or timeout
results have success false. -/
theorem C4_success_invariant :
    (∀ (status : Nat → JobStatus) (t p : Nat) (r : WaitResult),
       wait_for_job status t p = some r → (r.success = true ↔ r.status = "DONE"))
    ∧ (∀ (run : Nat → RunInfo) (t : Nat) (r : ScenarioWaitResult),
       run_scenario_and_wait run t = some r → (r.success = true ↔ r.outcome = some "SUCCESS")) :=
  ⟨fun status t p r h => waitGo_success_iff status t p (t / p + 2) 0 r h,
   fun run t r h => scenarioGo_success_iff run t (t / 2 + 2) 0 r h⟩

/-- Witness for C4: a job wait ending DONE and a scenario wait ending
with outcome FAILURE. -/
theorem C4_success_invariant_witness :
    ((true = true ↔ ("DONE" : String) = "DONE")
      ∧ (false = true ↔ (some "FAILURE" : Option String) = some "SUCCESS")) :=
  ⟨C4_success_invariant.1 (fun _ => ⟨some ⟨some "DONE"⟩, none⟩) 10 2
      ⟨true, "DONE", 0, .raw ⟨some ⟨some "DONE"⟩, none⟩⟩ rfl,
   C4_success_invariant.2 (fun _ => ⟨some ⟨some ⟨some "FAILURE"⟩⟩⟩) 10
      ⟨false, "DONE", 0, some "FAILURE", .raw ⟨some ⟨some ⟨some "FAILURE"⟩⟩⟩⟩ rfl⟩

/-- C5: when credentials are missing, `execute_python` returns the
instructional diagnostic text and leaves the server state untouched: the
supplied code is not executed (namespace unchanged), no client is
instantiated and no remote call is made (singleton and acquisition count
unchanged), and nothing is raised. -/
theorem C5_credentials_missing_short_circuit (st : ServerState) (code : List Cmd)
    (h : st.credentialsMissing = true) :
    execute_python st code = (credentials_error_text, st) := by
  simp [execute_python, h]

/-- Witness for C5: `execute("print(1)")` with credentials unset. -/
theorem C5_credentials_missing_short_circuit_witness :
    execute_python ⟨true, none, 0, fun _ => none⟩ [Cmd.printLit "1"]
      = (credentials_error_text, ⟨true, none, 0, fun _ => none⟩) :=
  C5_credentials_missing_short_circuit ⟨true, none, 0, fun _ => none⟩ [Cmd.printLit "1"] rfl

/-- C6: when the executed code raises, `execute_python` returns (never
re-raises) the output captured so far concatenated with the error-kind
label, the error message and the full traceback; and a subsequent
unrelated call still succeeds — `execute("print('ok')")` after the crash
outputs `ok`. -/
theorem C6_crash_containment (st : ServerState) (code : List Cmd)
    (g1 : NS) (out kind msg : String)
    (hcred : st.credentialsMissing = false)
    (hrun : runCmds code (updateNS st.globals "client" Val.clientHandle) ""
              = (g1, out, .exn kind msg)) :
    (execute_python st code).1
        = out ++ "\nError: " ++ kind ++ ": " ++ msg ++ "\n\n" ++ format_exc kind msg
    ∧ (execute_python (execute_python st code).2 [Cmd.printLit "ok"]).1 = "ok\n" := by
  constructor
  · rw [execute_python_eq st code hcred g1 out (.exn kind msg) hrun]
  · have hcred2 : (execute_python st code).2.credentialsMissing = false :=
      execute_python_snd_credentials st code hcred
    rw [execute_python_fst _ [Cmd.printLit "ok"] hcred2]
    rfl

/-- Witness for C6: `execute("raise RuntimeError('boom')")` followed by
`execute("print('ok')")` on a concrete fresh state. -/
theorem C6_crash_containment_witness :
    (execute_python ⟨false, none, 0, fun _ => none⟩ [Cmd.raiseErr "RuntimeError" "boom"]).1
        = "\nError: RuntimeError: boom\n\n" ++ format_exc "RuntimeError" "boom"
    ∧ (execute_python
        (execute_python ⟨false, none, 0, fun _ => none⟩
          [Cmd.raiseErr "RuntimeError" "boom"]).2
        [Cmd.printLit "ok"]).1 = "ok\n" :=
  C6_crash_containment ⟨false, none, 0, fun _ => none⟩ [Cmd.raiseErr "RuntimeError" "boom"]
    (updateNS (fun _ => none) "client" Val.clientHandle) "" "RuntimeError" "boom" rfl rfl

/-- C7: the execution namespace persists across calls:
`execute("x = 1")` followed by `execute("print(x)")` outputs `1`,
because the second call reads the binding the first call made in the
shared namespace. -/
theorem C7_namespace_persistence (st : ServerState)
    (hcred : st.credentialsMissing = false) :
    (execute_python (execute_python st [Cmd.assign "x" (Val.int 1)]).2
      [Cmd.printVar "x"]).1 = "1\n" := by
  have h1 : runCmds [Cmd.assign "x" (Val.int 1)]
      (updateNS st.globals "client" Val.clientHandle) ""
      = (updateNS (updateNS st.globals "client" Val.clientHandle) "x" (Val.int 1), "", .ok) :=
    rfl
  have hcred2 : (execute_python st [Cmd.assign "x" (Val.int 1)]).2.credentialsMissing = false :=
    execute_python_snd_credentials st _ hcred
  rw [execute_python_fst _ [Cmd.printVar "x"] hcred2,
    execute_python_snd_globals st _ hcred, h1]
  rfl

/-- Witness for C7 on a concrete fresh state. -/
theorem C7_namespace_persistence_witness :
    (execute_python (execute_python ⟨false, none, 0, fun _ => none⟩
      [Cmd.assign "x" (Val.int 1)]).2 [Cmd.printVar "x"]).1 = "1\n" :=
  C7_namespace_persistence ⟨false, none, 0, fun _ => none⟩ rfl

/-- C9: two consecutive `execute_python` calls whose snippets share no
variable names produce the same pair of outputs in either call order. -/
theorem C9_order_independence (st : ServerState) (a b : List Cmd)
    (hcred : st.credentialsMissing = false)
    (hdisj : ∀ x, x ∈ cmdsVars a → x ∉ cmdsVars b) :
    (execute_python st a).1 = (execute_python (execute_python st b).2 a).1
    ∧ (execute_python st b).1 = (execute_python (execute_python st a).2 b).1 :=
  ⟨(execute_python_unrelated_first st a b hcred hdisj).symm,
   (execute_python_unrelated_first st b a hcred
      (fun x hxb hxa => hdisj x hxa hxb)).symm⟩

/-- Witness for C9: `x = 1` and `print('hi')` share no variable names;
each output is the same whichever call went first. -/
theorem C9_order_independence_witness :
    ((execute_python ⟨false, none, 0, fun _ => none⟩ [Cmd.assign "x" (Val.int 1)]).1
      = (execute_python (execute_python ⟨false, none, 0, fun _ => none⟩
          [Cmd.printLit "hi"]).2 [Cmd.assign "x" (Val.int 1)]).1)
    ∧ ((execute_python ⟨false, none, 0, fun _ => none⟩ [Cmd.printLit "hi"]).1
      = (execute_python (execute_python ⟨false, none, 0, fun _ => none⟩
          [Cmd.assign "x" (Val.int 1)]).2 [Cmd.printLit "hi"]).1) :=
  C9_order_independence ⟨false, none, 0, fun _ => none⟩
    [Cmd.assign "x" (Val.int 1)] [Cmd.printLit "hi"] rfl
    (fun x _ hxb => List.not_mem_nil x hxb)

/-- C10: a scenario wait that observes a non-null outcome reports status
literally `DONE` even when the outcome is not `SUCCESS`: the failure is
visible only in the success and outcome fields. -/
theorem C10_failed_scenario_reports_done (run : Nat → RunInfo) (t k : Nat) (o : String)
    (hk : k * 2 ≤ t)
    (hpre : ∀ j, j < k → run_info_outcome (run j) = none)
    (hout : run_info_outcome (run k) = some o)
    (hne : o ≠ "SUCCESS") :
    run_scenario_and_wait run t =
      some ⟨false, "DONE", k * 2, some o, .raw (run k)⟩ := by
  have hbf : (o == "SUCCESS") = false := beq_eq_false_iff_ne.mpr hne
  have h := run_scenario_and_wait_terminal run t k o hk hpre hout
  rw [hbf] at h
  exact h

/-- Witness for C10: a `FAILED` outcome at poll 0 is reported with
status DONE and success false. -/
theorem C10_failed_scenario_reports_done_witness :
    run_scenario_and_wait (fun _ => ⟨some ⟨some ⟨some "FAILED"⟩⟩⟩) 10
      = some ⟨false, "DONE", 0, some "FAILED", .raw ⟨some ⟨some ⟨some "FAILED"⟩⟩⟩⟩ :=
  C10_failed_scenario_reports_done (fun _ => ⟨some ⟨some ⟨some "FAILED"⟩⟩⟩) 10 0 "FAILED"
    (by decide) (by decide) rfl (by decide)

/-- C8: if the state field is absent from both the nested and the flat
status shape on every poll, the extracted state is `UNKNOWN`, never
terminal, so `wait_for_job` never returns a terminal result and polls
until it returns the timeout record. -/
theorem C8_absent_state_never_terminates_early (status : Nat → JobStatus) (t p : Nat)
    (hp : 0 < p)
    (habs : ∀ k, ((status k).baseStatus.getD ⟨none⟩).state = none
              ∧ (status k).state = none) :
    wait_for_job status t p =
      some ⟨false, "TIMEOUT", (t / p + 1) * p,
        .message ("Job did not complete within " ++ toString t ++ " seconds")⟩ := by
  apply wait_for_job_timeout status t p hp
  intro j _
  have h := habs j
  have hstate : extract_state (status j) = "UNKNOWN" := by
    simp [extract_state, h.1, h.2]
  rw [hstate]
  rfl

/-- Witness for C8: `baseStatus` present without a state key, flat state
absent, timeout 1, poll_interval 1. -/
theorem C8_absent_state_never_terminates_early_witness :
    wait_for_job (fun _ => ⟨some ⟨none⟩, none⟩) 1 1
      = some ⟨false, "TIMEOUT", 2, .message "Job did not complete within 1 seconds"⟩ :=
  C8_absent_state_never_terminates_early (fun _ => ⟨some ⟨none⟩, none⟩) 1 1
    (by decide) (fun k => ⟨rfl, rfl⟩)
